import Mathlib

/-!
Shallow embedding of `src/routes/snowflake.js` (structure-store).

JS request-body fields are modelled as `Option String`: `none` stands for a
missing (`undefined`) field, `some s` for a string value.  JS truthiness of
such a value is `truthy` below (the empty string is falsy).  The Snowflake
driver is an oracle (`Driver`) giving the outcome of `connect` and of
`execute` per SQL text; each route handler is embedded as a pure function
from the request and the driver to the ordered list of responses the handler
passes to `res.send` together with the ordered trace of driver calls it
makes.  Control flow (missing `return` after `res.send`, try/catch blocks)
is translated exactly as written in the source.
-/

/-- Truthiness of a JS string-or-undefined value: `undefined` and `""` are falsy. -/
def truthy : Option String → Bool
  | none => false
  | some s => !s.isEmpty

/-- JS template-literal rendering of a string-or-undefined value:
interpolating `undefined` yields the text "undefined". -/
def jsStr : Option String → String
  | none => "undefined"
  | some s => s

/-- A result row as used by the handlers: only the CNT column is ever read;
`none` models a row without a CNT property (JS `undefined`). -/
structure SfRow where
  CNT : Option Int
deriving Repr, DecidableEq

/-- Result of `executeSnowflakeQuery`: the statement handle (opaque, modelled
by a string tag) and the materialized rows. -/
structure QueryResult where
  stmt : String
  rows : List SfRow
deriving Repr, DecidableEq

/-- The driver parameter object built by `getSnowflakeConnection`.  The three
required properties are always assigned (possibly with an undefined/empty
value, modelled by `Option String`); `role`/`warehouse` are `none` exactly
when the property is absent from the object. -/
structure ConnParams where
  account : Option String
  username : Option String
  password : Option String
  role : Option String
  warehouse : Option String
deriving Repr, DecidableEq

/-- JSON response bodies the handlers send. -/
inductive Response where
  | unsuccessful (reason : String)
  | connSuccess (connectionId : String)
  | querySuccess (response : QueryResult)
  | previewSuccess (preview : QueryResult) (columns : QueryResult) (rowcount : Option Int)
deriving Repr, DecidableEq

/-- Observable driver interactions, in call order. -/
inductive DriverCall where
  | createConnection (params : ConnParams)
  | connect
  | execute (sqlText : Option String)
  | getId
deriving Repr, DecidableEq

/-- Driver oracle: outcome of connecting, outcome of executing a given
sqlText (errors carry the driver's `err.message`), and the id returned by
`getId()`. -/
structure Driver where
  connectResult : Except String Unit
  executeResult : Option String → Except String QueryResult
  connId : String

/-- A request body as read by the handlers (each handler picks the fields it
uses). -/
structure Req where
  account : Option String
  username : Option String
  password : Option String
  role : Option String
  warehouse : Option String
  query : Option String
  database : Option String
  schema : Option String
  relation : Option String
deriving Repr, DecidableEq

/-- `validateSnowflakeConnectionParams` from snowflake.js lines 10-18:
first falsy field in the order account, username, password wins; returns
nothing (undefined) when all three are truthy. -/
def validateSnowflakeConnectionParams (account username password : Option String) :
    Option Response :=
  if !truthy account then
    some (Response.unsuccessful "invalid account")
  else if !truthy username then
    some (Response.unsuccessful "invalid username")
  else if !truthy password then
    some (Response.unsuccessful "invalid password")
  else
    none

/-- `getSnowflakeConnection` lines 21-40: required params always assigned,
optional params added only when truthy. -/
def getSnowflakeConnection (account username password role warehouse : Option String) :
    ConnParams :=
  { account := account
    username := username
    password := password
    role := if truthy role then role else none
    warehouse := if truthy warehouse then warehouse else none }

/-- Responses produced by `if (v) res.send(v)` for an optional validation
sentinel. -/
def optSends : Option Response → List Response
  | some e => [e]
  | none => []

/-- The connection-params validation sends at the top of each handler. -/
def connValidationSends (req : Req) : List Response :=
  optSends (validateSnowflakeConnectionParams req.account req.username req.password)

/-- Query-text validation in the /query handler, line 198. -/
def queryTextValidation (q : Option String) : Option Response :=
  if truthy q then none else some (Response.unsuccessful "A query must be provided")

/-- Preview-field validation, lines 304-308: a list over database, schema,
relation with nulls filtered out. -/
def previewFieldValidation (database schema relation : Option String) : List Response :=
  ([ if truthy database then none else some (Response.unsuccessful "A database must be provided"),
     if truthy schema then none else some (Response.unsuccessful "A schema must be provided"),
     if truthy relation then none else some (Response.unsuccessful "A relation must be provided")
   ] : List (Option Response)).filterMap id

/-- Responses produced by the query-text validation block of /query. -/
def queryValidationSends (req : Req) : List Response :=
  optSends (queryTextValidation req.query)

/-- Responses produced by the preview-field validation block, lines 309-311:
only the first element of the failure list is ever sent. -/
def previewValidationSends (req : Req) : List Response :=
  match previewFieldValidation req.database req.schema req.relation with
  | [] => []
  | e :: _ => [e]

/-- The connection each handler builds from the request fields. -/
def reqConn (req : Req) : ConnParams :=
  getSnowflakeConnection req.account req.username req.password req.role req.warehouse

/-- Error response of the connect catch in the open-connection handler. -/
def connErrResp (msg : String) : Response :=
  Response.unsuccessful ("Error connecting to Snowflake: " ++ msg)

/-- Error response of the catch blocks in the query/preview handlers. -/
def execErrResp (msg : String) : Response :=
  Response.unsuccessful ("Error executing Snowflake query: " ++ msg)

/-- Fixed preview row cap, line 285. -/
def numRowsInPreview : Nat := 100

/-- The `db.schema.relation` text interpolated into the preview queries. -/
def previewTable (req : Req) : String :=
  jsStr req.database ++ "." ++ jsStr req.schema ++ "." ++ jsStr req.relation

/-- First preview statement, line 320. -/
def previewQuery1 (req : Req) : String :=
  "SELECT * FROM " ++ previewTable req ++ " LIMIT " ++ toString numRowsInPreview ++ ";"

/-- Second preview statement, line 332. -/
def previewQuery2 (req : Req) : String :=
  "DESCRIBE TABLE " ++ previewTable req ++ ";"

/-- Third preview statement, line 344. -/
def previewQuery3 (req : Req) : String :=
  "SELECT COUNT(*) AS CNT FROM " ++ previewTable req ++ ";"

/-- The message of the TypeError thrown by `rows[0].CNT` when `rows` is
empty (`rows[0]` is undefined). -/
def cntTypeErrorMsg : String :=
  "Cannot read properties of undefined (reading 'CNT')"

/-- Handler for POST / (lines 105-132).  Validation failure sends a response
but does not return; the connect catch sends a response but does not return;
the final successful send with `sfConn.getId()` always runs. -/
def openConnectionHandler (req : Req) (d : Driver) : List Response × List DriverCall :=
  let vSends := connValidationSends req
  let p := reqConn req
  match d.connectResult with
  | Except.error msg =>
      (vSends ++ [connErrResp msg, Response.connSuccess d.connId],
       [DriverCall.createConnection p, DriverCall.connect, DriverCall.getId])
  | Except.ok _ =>
      (vSends ++ [Response.connSuccess d.connId],
       [DriverCall.createConnection p, DriverCall.connect, DriverCall.getId])

/-- Handler for POST /query (lines 182-221).  Validation sends do not
return; connect and execute share one try whose catch sends and returns. -/
def queryHandler (req : Req) (d : Driver) : List Response × List DriverCall :=
  let vSends := connValidationSends req
  let qSends := queryValidationSends req
  let p := reqConn req
  let pre := vSends ++ qSends
  match d.connectResult with
  | Except.error msg =>
      (pre ++ [execErrResp msg],
       [DriverCall.createConnection p, DriverCall.connect])
  | Except.ok _ =>
      match d.executeResult req.query with
      | Except.error msg =>
          (pre ++ [execErrResp msg],
           [DriverCall.createConnection p, DriverCall.connect, DriverCall.execute req.query])
      | Except.ok qr =>
          (pre ++ [Response.querySuccess qr],
           [DriverCall.createConnection p, DriverCall.connect, DriverCall.execute req.query])

/-- Handler for POST /relation-preview (lines 283-362).  Validation sends do
not return; three dependent try blocks each catch, send and return; the
`rows[0].CNT` extraction sits inside the third try, so an empty row set
raises a TypeError that the same catch converts into an error response. -/
def previewHandler (req : Req) (d : Driver) : List Response × List DriverCall :=
  let vSends := connValidationSends req
  let qSends := previewValidationSends req
  let p := reqConn req
  let pre := vSends ++ qSends
  match d.connectResult with
  | Except.error msg =>
      (pre ++ [execErrResp msg],
       [DriverCall.createConnection p, DriverCall.connect])
  | Except.ok _ =>
      match d.executeResult (some (previewQuery1 req)) with
      | Except.error msg =>
          (pre ++ [execErrResp msg],
           [DriverCall.createConnection p, DriverCall.connect,
            DriverCall.execute (some (previewQuery1 req))])
      | Except.ok preview =>
          match d.executeResult (some (previewQuery2 req)) with
          | Except.error msg =>
              (pre ++ [execErrResp msg],
               [DriverCall.createConnection p, DriverCall.connect,
                DriverCall.execute (some (previewQuery1 req)),
                DriverCall.execute (some (previewQuery2 req))])
          | Except.ok columns =>
              match d.executeResult (some (previewQuery3 req)) with
              | Except.error msg =>
                  (pre ++ [execErrResp msg],
                   [DriverCall.createConnection p, DriverCall.connect,
                    DriverCall.execute (some (previewQuery1 req)),
                    DriverCall.execute (some (previewQuery2 req)),
                    DriverCall.execute (some (previewQuery3 req))])
              | Except.ok cntRes =>
                  match cntRes.rows with
                  | [] =>
                      (pre ++ [execErrResp cntTypeErrorMsg],
                       [DriverCall.createConnection p, DriverCall.connect,
                        DriverCall.execute (some (previewQuery1 req)),
                        DriverCall.execute (some (previewQuery2 req)),
                        DriverCall.execute (some (previewQuery3 req))])
                  | r :: _ =>
                      (pre ++ [Response.previewSuccess preview columns r.CNT],
                       [DriverCall.createConnection p, DriverCall.connect,
                        DriverCall.execute (some (previewQuery1 req)),
                        DriverCall.execute (some (previewQuery2 req)),
                        DriverCall.execute (some (previewQuery3 req))])

/-- The full driver-call trace of a preview request that reaches the third
query. -/
def previewFullTrace (req : Req) : List DriverCall :=
  [DriverCall.createConnection (reqConn req), DriverCall.connect,
   DriverCall.execute (some (previewQuery1 req)),
   DriverCall.execute (some (previewQuery2 req)),
   DriverCall.execute (some (previewQuery3 req))]

/-- Sample request with every required field present and truthy. -/
def reqValid : Req :=
  { account := some "acct1", username := some "u", password := some "p"
    role := none, warehouse := none
    query := some "SHOW DATABASES;"
    database := some "MY_DATABASE", schema := some "MY_SCHEMA", relation := some "MY_TABLE" }

/-- Sample request identical to `reqValid` but with `account` missing. -/
def reqMissingAccount : Req :=
  { reqValid with account := none }

/-- Sample driver on which every call succeeds. -/
def dOk : Driver :=
  { connectResult := Except.ok ()
    executeResult := fun _ => Except.ok { stmt := "s", rows := [{ CNT := some 5 }] }
    connId := "123" }

/-- Sample driver on which connecting fails. -/
def dConnFail : Driver :=
  { connectResult := Except.error "bad auth"
    executeResult := fun _ => Except.error "no conn"
    connId := "123" }

/-- Sample driver where the count query of `reqValid` returns zero rows and
everything else succeeds. -/
def dZeroCount : Driver :=
  { connectResult := Except.ok ()
    executeResult := fun q =>
      if q = some (previewQuery3 reqValid) then Except.ok { stmt := "s3", rows := [] }
      else Except.ok { stmt := "s", rows := [{ CNT := some 1 }] }
    connId := "123" }

theorem connValidationSends_of_some (req : Req) (e : Response)
    (h : validateSnowflakeConnectionParams req.account req.username req.password = some e) :
    connValidationSends req = [e] := by
  simp [connValidationSends, h, optSends]

theorem connValidationSends_of_none (req : Req)
    (h : validateSnowflakeConnectionParams req.account req.username req.password = none) :
    connValidationSends req = [] := by
  simp [connValidationSends, h, optSends]

theorem openConnectionHandler_connectFail (req : Req) (d : Driver) (msg : String)
    (h : d.connectResult = Except.error msg) :
    openConnectionHandler req d =
      (connValidationSends req ++ [connErrResp msg, Response.connSuccess d.connId],
       [DriverCall.createConnection (reqConn req), DriverCall.connect, DriverCall.getId]) := by
  simp [openConnectionHandler, h]

theorem openConnectionHandler_connectOk (req : Req) (d : Driver)
    (h : d.connectResult = Except.ok ()) :
    openConnectionHandler req d =
      (connValidationSends req ++ [Response.connSuccess d.connId],
       [DriverCall.createConnection (reqConn req), DriverCall.connect, DriverCall.getId]) := by
  simp [openConnectionHandler, h]

theorem queryHandler_connectFail (req : Req) (d : Driver) (msg : String)
    (h : d.connectResult = Except.error msg) :
    queryHandler req d =
      (connValidationSends req ++ queryValidationSends req ++ [execErrResp msg],
       [DriverCall.createConnection (reqConn req), DriverCall.connect]) := by
  simp [queryHandler, h]

theorem queryHandler_executeFail (req : Req) (d : Driver) (msg : String)
    (hc : d.connectResult = Except.ok ())
    (he : d.executeResult req.query = Except.error msg) :
    queryHandler req d =
      (connValidationSends req ++ queryValidationSends req ++ [execErrResp msg],
       [DriverCall.createConnection (reqConn req), DriverCall.connect,
        DriverCall.execute req.query]) := by
  simp [queryHandler, hc, he]

theorem queryHandler_success (req : Req) (d : Driver) (qr : QueryResult)
    (hc : d.connectResult = Except.ok ())
    (he : d.executeResult req.query = Except.ok qr) :
    queryHandler req d =
      (connValidationSends req ++ queryValidationSends req ++ [Response.querySuccess qr],
       [DriverCall.createConnection (reqConn req), DriverCall.connect,
        DriverCall.execute req.query]) := by
  simp [queryHandler, hc, he]

theorem previewHandler_connectFail (req : Req) (d : Driver) (msg : String)
    (h : d.connectResult = Except.error msg) :
    previewHandler req d =
      (connValidationSends req ++ previewValidationSends req ++ [execErrResp msg],
       [DriverCall.createConnection (reqConn req), DriverCall.connect]) := by
  simp [previewHandler, h]

theorem previewHandler_q1Fail (req : Req) (d : Driver) (msg : String)
    (hc : d.connectResult = Except.ok ())
    (h1 : d.executeResult (some (previewQuery1 req)) = Except.error msg) :
    previewHandler req d =
      (connValidationSends req ++ previewValidationSends req ++ [execErrResp msg],
       [DriverCall.createConnection (reqConn req), DriverCall.connect,
        DriverCall.execute (some (previewQuery1 req))]) := by
  simp [previewHandler, hc, h1]

theorem previewHandler_q2Fail (req : Req) (d : Driver) (msg : String) (pv : QueryResult)
    (hc : d.connectResult = Except.ok ())
    (h1 : d.executeResult (some (previewQuery1 req)) = Except.ok pv)
    (h2 : d.executeResult (some (previewQuery2 req)) = Except.error msg) :
    previewHandler req d =
      (connValidationSends req ++ previewValidationSends req ++ [execErrResp msg],
       [DriverCall.createConnection (reqConn req), DriverCall.connect,
        DriverCall.execute (some (previewQuery1 req)),
        DriverCall.execute (some (previewQuery2 req))]) := by
  simp [previewHandler, hc, h1, h2]

theorem previewHandler_q3Fail (req : Req) (d : Driver) (msg : String) (pv cols : QueryResult)
    (hc : d.connectResult = Except.ok ())
    (h1 : d.executeResult (some (previewQuery1 req)) = Except.ok pv)
    (h2 : d.executeResult (some (previewQuery2 req)) = Except.ok cols)
    (h3 : d.executeResult (some (previewQuery3 req)) = Except.error msg) :
    previewHandler req d =
      (connValidationSends req ++ previewValidationSends req ++ [execErrResp msg],
       previewFullTrace req) := by
  simp [previewHandler, hc, h1, h2, h3, previewFullTrace]

theorem previewHandler_zeroRows (req : Req) (d : Driver) (pv cols cnt : QueryResult)
    (hc : d.connectResult = Except.ok ())
    (h1 : d.executeResult (some (previewQuery1 req)) = Except.ok pv)
    (h2 : d.executeResult (some (previewQuery2 req)) = Except.ok cols)
    (h3 : d.executeResult (some (previewQuery3 req)) = Except.ok cnt)
    (hr : cnt.rows = []) :
    previewHandler req d =
      (connValidationSends req ++ previewValidationSends req ++ [execErrResp cntTypeErrorMsg],
       previewFullTrace req) := by
  simp [previewHandler, hc, h1, h2, h3, hr, previewFullTrace]

theorem previewHandler_success (req : Req) (d : Driver) (pv cols cnt : QueryResult)
    (r : SfRow) (rs : List SfRow)
    (hc : d.connectResult = Except.ok ())
    (h1 : d.executeResult (some (previewQuery1 req)) = Except.ok pv)
    (h2 : d.executeResult (some (previewQuery2 req)) = Except.ok cols)
    (h3 : d.executeResult (some (previewQuery3 req)) = Except.ok cnt)
    (hr : cnt.rows = r :: rs) :
    previewHandler req d =
      (connValidationSends req ++ previewValidationSends req ++
        [Response.previewSuccess pv cols r.CNT],
       previewFullTrace req) := by
  simp [previewHandler, hc, h1, h2, h3, hr, previewFullTrace]

/-- C1: the connection-params validator returns the error of the first falsy
field in the fixed order account, username, password, returns nothing when
all three are truthy, and in every one of the three handlers a validation
failure makes that error the first response sent. -/
theorem C1_validator_first_failing_field :
    (∀ a u p : Option String, truthy a = false →
        validateSnowflakeConnectionParams a u p = some (Response.unsuccessful "invalid account")) ∧
    (∀ a u p : Option String, truthy a = true → truthy u = false →
        validateSnowflakeConnectionParams a u p = some (Response.unsuccessful "invalid username")) ∧
    (∀ a u p : Option String, truthy a = true → truthy u = true → truthy p = false →
        validateSnowflakeConnectionParams a u p = some (Response.unsuccessful "invalid password")) ∧
    (∀ a u p : Option String, truthy a = true → truthy u = true → truthy p = true →
        validateSnowflakeConnectionParams a u p = none) ∧
    (∀ (req : Req) (d : Driver) (e : Response),
        validateSnowflakeConnectionParams req.account req.username req.password = some e →
        (openConnectionHandler req d).1.head? = some e ∧
        (queryHandler req d).1.head? = some e ∧
        (previewHandler req d).1.head? = some e) := by
  refine ⟨?_, ?_, ?_, ?_, ?_⟩
  · intro a u p ha
    simp [validateSnowflakeConnectionParams, ha]
  · intro a u p ha hu
    simp [validateSnowflakeConnectionParams, ha, hu]
  · intro a u p ha hu hp
    simp [validateSnowflakeConnectionParams, ha, hu, hp]
  · intro a u p ha hu hp
    simp [validateSnowflakeConnectionParams, ha, hu, hp]
  · intro req d e he
    have hv := connValidationSends_of_some req e he
    refine ⟨?_, ?_, ?_⟩
    · rcases hc : d.connectResult with msg | u
      · rw [openConnectionHandler_connectFail req d msg hc, hv]
        rfl
      · cases u
        rw [openConnectionHandler_connectOk req d hc, hv]
        rfl
    · rcases hc : d.connectResult with msg | u
      · rw [queryHandler_connectFail req d msg hc, hv]
        rfl
      · cases u
        rcases hq : d.executeResult req.query with msg | qr
        · rw [queryHandler_executeFail req d msg hc hq, hv]
          rfl
        · rw [queryHandler_success req d qr hc hq, hv]
          rfl
    · rcases hc : d.connectResult with msg | u
      · rw [previewHandler_connectFail req d msg hc, hv]
        rfl
      · cases u
        rcases h1 : d.executeResult (some (previewQuery1 req)) with msg | pv
        · rw [previewHandler_q1Fail req d msg hc h1, hv]
          rfl
        · rcases h2 : d.executeResult (some (previewQuery2 req)) with msg | cols
          · rw [previewHandler_q2Fail req d msg pv hc h1 h2, hv]
            rfl
          · rcases h3 : d.executeResult (some (previewQuery3 req)) with msg | cnt
            · rw [previewHandler_q3Fail req d msg pv cols hc h1 h2 h3, hv]
              rfl
            · rcases hr : cnt.rows with _ | ⟨r, rs⟩
              · rw [previewHandler_zeroRows req d pv cols cnt hc h1 h2 h3 hr, hv]
                rfl
              · rw [previewHandler_success req d pv cols cnt r rs hc h1 h2 h3 hr, hv]
                rfl

/-- Witness for C1 at concrete inputs: a request missing only its account is
answered first with the account error by all three handlers, and a fully
truthy triple validates to nothing. -/
theorem C1_validator_first_failing_field_witness :
    ((openConnectionHandler reqMissingAccount dOk).1.head? =
        some (Response.unsuccessful "invalid account") ∧
      (queryHandler reqMissingAccount dOk).1.head? =
        some (Response.unsuccessful "invalid account") ∧
      (previewHandler reqMissingAccount dOk).1.head? =
        some (Response.unsuccessful "invalid account")) ∧
    validateSnowflakeConnectionParams (some "acct1") (some "u") (some "p") = none :=
  ⟨C1_validator_first_failing_field.2.2.2.2 reqMissingAccount dOk
      (Response.unsuccessful "invalid account") (by decide),
   C1_validator_first_failing_field.2.2.2.1 (some "acct1") (some "u") (some "p")
      (by decide) (by decide) (by decide)⟩

/-- C2: on /query, a connect or execute failure makes the handler send
exactly the validation sends followed by the single "Error executing
Snowflake query: " + message response and return at once: the trace stops at
the failing call, with no further driver calls. -/
theorem C2_query_failure_short_circuits (req : Req) (d : Driver) (msg : String) :
    (d.connectResult = Except.error msg →
      queryHandler req d =
        (connValidationSends req ++ queryValidationSends req ++ [execErrResp msg],
         [DriverCall.createConnection (reqConn req), DriverCall.connect])) ∧
    (d.connectResult = Except.ok () → d.executeResult req.query = Except.error msg →
      queryHandler req d =
        (connValidationSends req ++ queryValidationSends req ++ [execErrResp msg],
         [DriverCall.createConnection (reqConn req), DriverCall.connect,
          DriverCall.execute req.query])) :=
  ⟨fun hc => queryHandler_connectFail req d msg hc,
   fun hc he => queryHandler_executeFail req d msg hc he⟩

/-- Witness for C2: a valid request against the failing-connect driver gets
the single error response and a trace that ends at the connect call. -/
theorem C2_query_failure_short_circuits_witness :
    queryHandler reqValid dConnFail =
      ([execErrResp "bad auth"],
       [DriverCall.createConnection (reqConn reqValid), DriverCall.connect]) := by
  have h := (C2_query_failure_short_circuits reqValid dConnFail "bad auth").1 (by rfl)
  rw [h]
  rfl

/-- C4: the connection builder always carries the three required fields
through unchanged, includes role/warehouse exactly when truthy, and treats
an empty-string optional exactly like an absent one. -/
theorem C4_connection_builder_optional_params (a u p r w : Option String) :
    (getSnowflakeConnection a u p r w).account = a ∧
    (getSnowflakeConnection a u p r w).username = u ∧
    (getSnowflakeConnection a u p r w).password = p ∧
    (truthy r = true → (getSnowflakeConnection a u p r w).role = r) ∧
    (truthy r = false → (getSnowflakeConnection a u p r w).role = none) ∧
    (truthy w = true → (getSnowflakeConnection a u p r w).warehouse = w) ∧
    (truthy w = false → (getSnowflakeConnection a u p r w).warehouse = none) ∧
    getSnowflakeConnection a u p (some "") w = getSnowflakeConnection a u p none w ∧
    getSnowflakeConnection a u p r (some "") = getSnowflakeConnection a u p r none := by
  refine ⟨rfl, rfl, rfl, ?_, ?_, ?_, ?_, ?_, ?_⟩
  · intro h
    simp [getSnowflakeConnection, h]
  · intro h
    simp [getSnowflakeConnection, h]
  · intro h
    simp [getSnowflakeConnection, h]
  · intro h
    simp [getSnowflakeConnection, h]
  · simp [getSnowflakeConnection, truthy]
    decide
  · simp [getSnowflakeConnection, truthy]
    decide

/-- Witness for C4: a truthy role is kept, an empty-string warehouse is
dropped exactly like an omitted one. -/
theorem C4_connection_builder_optional_params_witness :
    (getSnowflakeConnection (some "a") (some "u") (some "p") (some "ADMIN") (some "")).role =
      some "ADMIN" ∧
    (getSnowflakeConnection (some "a") (some "u") (some "p") (some "ADMIN") (some "")).warehouse =
      none :=
  ⟨(C4_connection_builder_optional_params (some "a") (some "u") (some "p") (some "ADMIN")
      (some "")).2.2.2.1 (by decide),
   (C4_connection_builder_optional_params (some "a") (some "u") (some "p") (some "ADMIN")
      (some "")).2.2.2.2.2.2.1 (by decide)⟩

/-- C3: a valid preview request runs exactly the three fixed statements
strictly in order on the single connection built for the request, with the
row cap fixed at 100; each step fails independently with its own "Error
executing Snowflake query" response and stops the trace at the failing call;
on full success the response is the single previewSuccess payload. -/
theorem C3_preview_three_queries (req : Req) (d : Driver)
    (ha : truthy req.account = true) (hu : truthy req.username = true)
    (hp : truthy req.password = true) (hdb : truthy req.database = true)
    (hs : truthy req.schema = true) (hrel : truthy req.relation = true) :
    (numRowsInPreview = 100 ∧
     previewQuery1 req = "SELECT * FROM " ++ previewTable req ++ " LIMIT " ++ "100" ++ ";" ∧
     previewQuery2 req = "DESCRIBE TABLE " ++ previewTable req ++ ";" ∧
     previewQuery3 req = "SELECT COUNT(*) AS CNT FROM " ++ previewTable req ++ ";") ∧
    (∀ msg, d.connectResult = Except.ok () →
       d.executeResult (some (previewQuery1 req)) = Except.error msg →
       previewHandler req d =
         ([execErrResp msg],
          [DriverCall.createConnection (reqConn req), DriverCall.connect,
           DriverCall.execute (some (previewQuery1 req))])) ∧
    (∀ msg pv, d.connectResult = Except.ok () →
       d.executeResult (some (previewQuery1 req)) = Except.ok pv →
       d.executeResult (some (previewQuery2 req)) = Except.error msg →
       previewHandler req d =
         ([execErrResp msg],
          [DriverCall.createConnection (reqConn req), DriverCall.connect,
           DriverCall.execute (some (previewQuery1 req)),
           DriverCall.execute (some (previewQuery2 req))])) ∧
    (∀ msg pv cols, d.connectResult = Except.ok () →
       d.executeResult (some (previewQuery1 req)) = Except.ok pv →
       d.executeResult (some (previewQuery2 req)) = Except.ok cols →
       d.executeResult (some (previewQuery3 req)) = Except.error msg →
       previewHandler req d = ([execErrResp msg], previewFullTrace req)) ∧
    (∀ pv cols cnt (r : SfRow) rs, d.connectResult = Except.ok () →
       d.executeResult (some (previewQuery1 req)) = Except.ok pv →
       d.executeResult (some (previewQuery2 req)) = Except.ok cols →
       d.executeResult (some (previewQuery3 req)) = Except.ok cnt →
       cnt.rows = r :: rs →
       previewHandler req d =
         ([Response.previewSuccess pv cols r.CNT], previewFullTrace req)) := by
  have hv : connValidationSends req = [] := by
    apply connValidationSends_of_none
    simp [validateSnowflakeConnectionParams, ha, hu, hp]
  have hq : previewValidationSends req = [] := by
    simp [previewValidationSends, previewFieldValidation, hdb, hs, hrel]
  refine ⟨⟨rfl, rfl, rfl, rfl⟩, ?_, ?_, ?_, ?_⟩
  · intro msg hc h1
    rw [previewHandler_q1Fail req d msg hc h1, hv, hq]
    rfl
  · intro msg pv hc h1 h2
    rw [previewHandler_q2Fail req d msg pv hc h1 h2, hv, hq]
    rfl
  · intro msg pv cols hc h1 h2 h3
    rw [previewHandler_q3Fail req d msg pv cols hc h1 h2 h3, hv, hq]
    rfl
  · intro pv cols cnt r rs hc h1 h2 h3 hrows
    rw [previewHandler_success req d pv cols cnt r rs hc h1 h2 h3 hrows, hv, hq]
    rfl

/-- Witness for C3: the all-successful driver on the valid request yields the
previewSuccess response and the full five-call trace. -/
theorem C3_preview_three_queries_witness :
    previewHandler reqValid dOk =
      ([Response.previewSuccess { stmt := "s", rows := [{ CNT := some 5 }] }
          { stmt := "s", rows := [{ CNT := some 5 }] } (some 5)],
       previewFullTrace reqValid) :=
  (C3_preview_three_queries reqValid dOk (by decide) (by decide) (by decide) (by decide)
      (by decide) (by decide)).2.2.2.2
    { stmt := "s", rows := [{ CNT := some 5 }] }
    { stmt := "s", rows := [{ CNT := some 5 }] }
    { stmt := "s", rows := [{ CNT := some 5 }] }
    { CNT := some 5 } [] (by rfl) (by rfl) (by rfl) (by rfl) (by rfl)

/-- C5 evidence: the /query and /relation-preview handlers do NOT stop after
sending a validation error — on a request missing its account they still
build the connection and call connect, and a failing connect then produces a
second response. -/
theorem C5_validation_failure_still_calls_driver :
    (queryHandler reqMissingAccount dConnFail).1 =
      [Response.unsuccessful "invalid account", execErrResp "bad auth"] ∧
    (queryHandler reqMissingAccount dConnFail).2 =
      [DriverCall.createConnection (reqConn reqMissingAccount), DriverCall.connect] ∧
    (previewHandler reqMissingAccount dConnFail).1 =
      [Response.unsuccessful "invalid account", execErrResp "bad auth"] ∧
    (previewHandler reqMissingAccount dConnFail).2 =
      [DriverCall.createConnection (reqConn reqMissingAccount), DriverCall.connect] :=
  ⟨rfl, rfl, rfl, rfl⟩

/-- C6: on POST / a validation failure does not stop the handler: the trace
still holds the connection build, the connect attempt and the getId call,
the validation error is the first response, and at least one further
response is written for the same request. -/
theorem C6_open_connection_proceeds_after_validation_failure
    (req : Req) (d : Driver) (e : Response)
    (h : validateSnowflakeConnectionParams req.account req.username req.password = some e) :
    (openConnectionHandler req d).2 =
      [DriverCall.createConnection (reqConn req), DriverCall.connect, DriverCall.getId] ∧
    (openConnectionHandler req d).1.head? = some e ∧
    2 ≤ (openConnectionHandler req d).1.length := by
  have hv := connValidationSends_of_some req e h
  rcases hc : d.connectResult with msg | u
  · rw [openConnectionHandler_connectFail req d msg hc, hv]
    exact ⟨rfl, rfl, by simp⟩
  · cases u
    rw [openConnectionHandler_connectOk req d hc, hv]
    exact ⟨rfl, rfl, by simp⟩

/-- Witness for C6: the account-less request against the succeeding driver
still produces the full driver trace. -/
theorem C6_open_connection_proceeds_after_validation_failure_witness :
    (openConnectionHandler reqMissingAccount dOk).2 =
      [DriverCall.createConnection (reqConn reqMissingAccount), DriverCall.connect,
       DriverCall.getId] :=
  (C6_open_connection_proceeds_after_validation_failure reqMissingAccount dOk
      (Response.unsuccessful "invalid account") (by decide)).1

/-- C7: the preview validator builds, in the fixed order database, schema,
relation, the list of exactly the failing fields' errors (non-failures
filtered out), and when connection params are fine the handler surfaces only
the first element of that list as the first response. -/
theorem C7_preview_validator_first_of_all_failures :
    (∀ db sch rel : Option String,
       previewFieldValidation db sch rel =
         (if truthy db = true then [] else [Response.unsuccessful "A database must be provided"]) ++
         (if truthy sch = true then [] else [Response.unsuccessful "A schema must be provided"]) ++
         (if truthy rel = true then [] else [Response.unsuccessful "A relation must be provided"])) ∧
    (∀ (req : Req) (d : Driver) (e : Response) (rest : List Response),
       validateSnowflakeConnectionParams req.account req.username req.password = none →
       previewFieldValidation req.database req.schema req.relation = e :: rest →
       (previewHandler req d).1.head? = some e) := by
  constructor
  · intro db sch rel
    cases hdb : truthy db <;> cases hs : truthy sch <;> cases hrel : truthy rel <;>
      simp [previewFieldValidation, hdb, hs, hrel]
  · intro req d e rest hconn hlist
    have hv := connValidationSends_of_none req hconn
    have hpv : previewValidationSends req = [e] := by
      simp [previewValidationSends, hlist]
    rcases hc : d.connectResult with msg | u
    · rw [previewHandler_connectFail req d msg hc, hv, hpv]
      rfl
    · cases u
      rcases h1 : d.executeResult (some (previewQuery1 req)) with msg | pv
      · rw [previewHandler_q1Fail req d msg hc h1, hv, hpv]
        rfl
      · rcases h2 : d.executeResult (some (previewQuery2 req)) with msg | cols
        · rw [previewHandler_q2Fail req d msg pv hc h1 h2, hv, hpv]
          rfl
        · rcases h3 : d.executeResult (some (previewQuery3 req)) with msg | cnt
          · rw [previewHandler_q3Fail req d msg pv cols hc h1 h2 h3, hv, hpv]
            rfl
          · rcases hrows : cnt.rows with _ | ⟨r, rs⟩
            · rw [previewHandler_zeroRows req d pv cols cnt hc h1 h2 h3 hrows, hv, hpv]
              rfl
            · rw [previewHandler_success req d pv cols cnt r rs hc h1 h2 h3 hrows, hv, hpv]
              rfl

/-- Witness for C7: with only the database missing, the handler's first
response is the database error. -/
theorem C7_preview_validator_first_of_all_failures_witness :
    (previewHandler { reqValid with database := none } dOk).1.head? =
      some (Response.unsuccessful "A database must be provided") :=
  C7_preview_validator_first_of_all_failures.2 { reqValid with database := none } dOk
    (Response.unsuccessful "A database must be provided") [] (by decide) (by decide)

/-- C8 counterexample: with the count query of the valid request returning
zero rows, the preview handler still completes and produces an error
response — the TypeError from `rows[0].CNT` is raised inside the try block
and converted by the enclosing catch, so there is no unhandled throw and no
missing response. -/
theorem C8_zero_row_count_produces_response :
    (previewHandler reqValid dZeroCount).1 =
      [Response.unsuccessful
        ("Error executing Snowflake query: Cannot read properties of undefined (reading 'CNT')")] ∧
    (previewHandler reqValid dZeroCount).2 = previewFullTrace reqValid :=
  ⟨rfl, rfl⟩

/-- C8 (amended): when the count query succeeds with zero rows, the
`rows[0].CNT` TypeError is caught by the third try's catch and the handler
responds with "Error executing Snowflake query: " + the TypeError message
and returns, after the full five-call trace. -/
theorem C8_zero_row_count_caught (req : Req) (d : Driver) (pv cols cnt : QueryResult)
    (hc : d.connectResult = Except.ok ())
    (h1 : d.executeResult (some (previewQuery1 req)) = Except.ok pv)
    (h2 : d.executeResult (some (previewQuery2 req)) = Except.ok cols)
    (h3 : d.executeResult (some (previewQuery3 req)) = Except.ok cnt)
    (hrows : cnt.rows = []) :
    previewHandler req d =
      (connValidationSends req ++ previewValidationSends req ++ [execErrResp cntTypeErrorMsg],
       previewFullTrace req) :=
  previewHandler_zeroRows req d pv cols cnt hc h1 h2 h3 hrows

/-- Witness for the amended C8 at the concrete zero-row driver. -/
theorem C8_zero_row_count_caught_witness :
    previewHandler reqValid dZeroCount =
      ([execErrResp cntTypeErrorMsg], previewFullTrace reqValid) := by
  have h := C8_zero_row_count_caught reqValid dZeroCount
    { stmt := "s", rows := [{ CNT := some 1 }] }
    { stmt := "s", rows := [{ CNT := some 1 }] }
    { stmt := "s3", rows := [] } rfl rfl rfl rfl rfl
  rw [h]
  rfl

/-- C9: on POST /, a connect failure sends the "Error connecting to
Snowflake" response but does not return: the handler falls through, calls
getId() on the handle, and sends a second, successful response carrying the
connection id. -/
theorem C9_connect_failure_falls_through (req : Req) (d : Driver) (msg : String)
    (h : d.connectResult = Except.error msg) :
    openConnectionHandler req d =
      (connValidationSends req ++ [connErrResp msg, Response.connSuccess d.connId],
       [DriverCall.createConnection (reqConn req), DriverCall.connect, DriverCall.getId]) :=
  openConnectionHandler_connectFail req d msg h

/-- Witness for C9: the valid request against the failing-connect driver
gets both the error response and the overriding successful response. -/
theorem C9_connect_failure_falls_through_witness :
    openConnectionHandler reqValid dConnFail =
      ([connErrResp "bad auth", Response.connSuccess "123"],
       [DriverCall.createConnection (reqConn reqValid), DriverCall.connect,
        DriverCall.getId]) := by
  have h := C9_connect_failure_falls_through reqValid dConnFail "bad auth" rfl
  rw [h]
  rfl

/-- C10: an empty-string field is falsy exactly like a missing one: both
validators give identical results for `some ""` and `none`, and in
particular an empty password yields the invalid-password error. -/
theorem C10_empty_string_treated_as_missing :
    truthy (some "") = false ∧
    (∀ a u : Option String,
       validateSnowflakeConnectionParams a u (some "") =
         validateSnowflakeConnectionParams a u none) ∧
    (∀ u p : Option String,
       validateSnowflakeConnectionParams (some "") u p =
         validateSnowflakeConnectionParams none u p) ∧
    (∀ a p : Option String,
       validateSnowflakeConnectionParams a (some "") p =
         validateSnowflakeConnectionParams a none p) ∧
    validateSnowflakeConnectionParams (some "acct1") (some "u") (some "") =
      some (Response.unsuccessful "invalid password") ∧
    (∀ db sch : Option String,
       previewFieldValidation db sch (some "") = previewFieldValidation db sch none) ∧
    (∀ sch rel : Option String,
       previewFieldValidation (some "") sch rel = previewFieldValidation none sch rel) ∧
    (∀ db rel : Option String,
       previewFieldValidation db (some "") rel = previewFieldValidation db none rel) := by
  have ht : truthy (some "") = truthy none := by decide
  refine ⟨by decide, ?_, ?_, ?_, by decide, ?_, ?_, ?_⟩ <;> intro x y <;>
    simp only [validateSnowflakeConnectionParams, previewFieldValidation, ht]
